import Mathlib

/-!
# DefineJS: the synchronous spawn primitive of `src/_defjs.cc`

A shallow embedding of the two overloads of `defjs::CallSync`.

* C strings are `String`s read up to their first NUL character (`strdup`, `strlen`);
  a `char*` that may be `NULL` is an `Option String`; a `char**` vector is the list of
  its slots, the terminating `NULL` slot included.
* V8 is an external library: a JavaScript value is given by what the V8 calls made by
  `CallSync` return for it (`IsString`, `IsArray`, `ToString`, `Length`, `Get`).
  A value whose `ToString()` throws is not modelled.
* The operating system is an oracle (`OS`) fixing what `vfork`, `chdir`, `execvp` and
  `waitpid` answer during one call.  `waitpid(pid_, &status, 0)` is taken to return with
  a raw status of the child stored in `status`; the source does not look at its return
  value, and a call that fails (interrupted by a signal, nothing stored) is not modelled.
  The status need not say that the child has terminated: a child that is traced by its
  parent is also reported when it stops, and such a child is not reaped.
  Memory allocation is assumed to succeed.
* `int` arithmetic is 32 bit two-complement; where the C++ code would overflow, write out
  of bounds or abort, the marshalling functions give `none`.
* The release of the vectors after the call (lines 93 to 97) has no effect on the result
  and is left out.
-/

namespace defjs

/-! ## C strings and vectors -/

/-- The NUL character that ends a C string. -/
def NUL : Char := Char.ofNat 0

/-- C `strdup`: a copy of the characters that come before the first NUL. -/
def strdup (s : String) : String :=
  String.mk (s.data.takeWhile (fun c => c != NUL))

/-- C `strlen`: the number of characters that come before the first NUL. -/
def strlen (s : String) : Nat :=
  (s.data.takeWhile (fun c => c != NUL)).length

/-- A `char**` vector, slot by slot; `none` is a `NULL` slot. -/
abbrev Vec := List (Option String)

/-! ## Wait status macros of `<sys/wait.h>`

These macros come from the system headers, not from the repository; the definitions
follow glibc `bits/waitstatus.h`, on `int` read as a two-complement integer
(`x & 0x7f` is `x % 128`, `(x & 0xff00) >> 8` is `(x / 256) % 256`). -/

/-- The C cast `(signed char) n`. -/
def signed_char (n : Int) : Int :=
  if n % 256 < 128 then n % 256 else n % 256 - 256

/-- `WIFEXITED(status)`: `((status) & 0x7f) == 0`. -/
def WIFEXITED (status : Int) : Bool :=
  status % 128 == 0

/-- `WEXITSTATUS(status)`: `((status) & 0xff00) >> 8`. -/
def WEXITSTATUS (status : Int) : Int :=
  (status / 256) % 256

/-- `WIFSIGNALED(status)`: `((signed char) (((status) & 0x7f) + 1) >> 1) > 0`. -/
def WIFSIGNALED (status : Int) : Bool :=
  decide (0 < signed_char (status % 128 + 1) / 2)

/-- The raw status the kernel records for a child that called `_exit(code)`:
`W_EXITCODE(code, 0)`, the low eight bits of the code shifted left by eight. -/
def W_EXITCODE (code : Int) : Int :=
  (code % 256) * 256

/-- Whether a raw status says that the child has terminated, by exit or by a signal.
Only then has `waitpid` reaped the child; a child reported as stopped or continued is
still alive and still a child of the process. -/
def terminated (status : Int) : Bool :=
  WIFEXITED status || WIFSIGNALED status

/-! ## The operating system and the process state -/

/-- What the operating system answers during one call of `CallSync`. -/
structure OS where
  /-- What `vfork()` returns in the caller: `-1`, or the pid of the new child
  (the value `0` is what the child sees). -/
  vfork : Int
  /-- What `chdir(cwd)` returns in the child: `0` on success. -/
  chdir : Int
  /-- Whether `execvp` replaces the image of the child (`true`, it does not return)
  or returns to the child (`false`, failure). -/
  execvp : Bool
  /-- The raw status `waitpid` stores for a child whose image was replaced: any
  status the new program can bring about, of a termination or of a stop. -/
  status : Int
  deriving DecidableEq, Repr

/-- Which process runs a statement: the caller, or the child made by `vfork`. -/
inductive Proc where
  | parent
  | child
  deriving DecidableEq, Repr

/-- The system calls and the writes to `environ` made during a call, in order. -/
inductive Event where
  | vfork (ret : Int)
  | chdir (path : String) (ret : Int)
  | perror (s : String)
  | environ_assign (who : Proc) (value : Vec)
  | execvp (file : Option String) (argv : Vec) (environ : Vec) (replaced : Bool)
  | exit (code : Int)
  | waitpid (pid : Int) (options : Int) (status : Int)
  deriving DecidableEq, Repr

/-- The memory the vfork child shares with its parent, as far as `CallSync` touches it,
and the children of the process that have not been waited for. -/
structure World where
  /-- The vector the global `environ` points to. -/
  environ : Vec
  /-- The pids of the children created and not yet reaped. -/
  children : List Int
  deriving DecidableEq, Repr

/-- How the child branch of the `switch` ends. -/
inductive ChildEnd where
  | exited (code : Int)
  | replaced
  deriving DecidableEq, Repr

/-- The child branch run to its end. -/
structure ChildRun where
  world : World
  trace : List Event
  fate : ChildEnd
  deriving DecidableEq, Repr

/-- A `Handle<Value>` handed back to JavaScript: `Integer::New(n)`, or the exception
scheduled by `THROW_ERROR(message)`. -/
inductive Outcome where
  | integer (n : Int)
  | thrown (message : String)
  deriving DecidableEq, Repr

/-- One call of the inner `CallSync` run to its end. -/
structure Run where
  result : Outcome
  world : World
  trace : List Event
  deriving DecidableEq, Repr

/-! ## `CallSync(file, args, cwd, env)` -/

/-- The `case 0:` branch (lines 115 to 125), run by the child on the memory of the
parent.  In `strlen(cwd) && chdir(cwd)` the call of `chdir` is made only when
`strlen(cwd)` is not zero. -/
def child (os : OS) (file : Option String) (args : Vec) (cwd : String) (env : Vec)
    (w : World) : ChildRun :=
  let pre : List Event := if strlen cwd ≠ 0 then [Event.chdir cwd os.chdir] else []
  if strlen cwd ≠ 0 ∧ os.chdir ≠ 0 then
    { world := w
      trace := pre ++ [Event.perror "chdir()", Event.exit 127]
      fate := ChildEnd.exited 127 }
  else
    let w1 : World := { w with environ := env }
    let ev := pre ++ [Event.environ_assign Proc.child env,
                      Event.execvp file args w1.environ os.execvp]
    if os.execvp then
      { world := w1, trace := ev, fate := ChildEnd.replaced }
    else
      { world := w1
        trace := ev ++ [Event.perror "execvp()", Event.exit 127]
        fate := ChildEnd.exited 127 }

/-- The raw status `waitpid` stores for a child that ended as `fate`. -/
def wait_status (os : OS) (fate : ChildEnd) : Int :=
  match fate with
  | ChildEnd.exited code => W_EXITCODE code
  | ChildEnd.replaced => os.status

/-- Lines 134 to 141: the decoding of the raw status. -/
def decode (status : Int) : Outcome :=
  if WIFEXITED status then Outcome.integer (WEXITSTATUS status)
  else if WIFSIGNALED status then Outcome.thrown "Child terminated by signal."
  else Outcome.thrown "Child exited abnormally."

/-- The inner `CallSync` (lines 102 to 142).  When `vfork` succeeds the child runs first,
on the memory of the suspended parent, until it exits or replaces its image; then the
parent goes on after the `switch` with `pid_` the pid of the child.  The single
`waitpid` of line 132 takes the child off the unreaped children only when the status it
stores says the child has terminated; the three returns of lines 134 to 141 follow
without another wait. -/
def CallSync (os : OS) (file : Option String) (args : Vec) (cwd : String) (env : Vec)
    (w : World) : Run :=
  let parent_env := w.environ
  if os.vfork = -1 then
    { result := Outcome.integer (-4), world := w, trace := [Event.vfork (-1)] }
  else
    let pid_ := os.vfork
    let c := child os file args cwd env { w with children := pid_ :: w.children }
    let w2 : World := { c.world with environ := parent_env }
    let status := wait_status os c.fate
    let w3 : World :=
      { w2 with children := if terminated status then w2.children.erase pid_
                            else w2.children }
    { result := decode status
      world := w3
      trace := Event.vfork pid_ :: c.trace ++
        [Event.environ_assign Proc.parent parent_env, Event.waitpid pid_ 0 status] }

/-! ## `CallSync(const Arguments&)` -/

/-- A JavaScript value, given by what the V8 calls made by `CallSync` return for it. -/
structure Value where
  /-- The answer of `IsString()`. -/
  IsString : Bool
  /-- The answer of `IsArray()`. -/
  IsArray : Bool
  /-- The text of `ToString()`, as `String::Utf8Value` holds it; for a string, the
  string itself. -/
  ToString : String
  /-- The answer of `Array::Length()`, a `uint32_t`. -/
  Length : Nat
  /-- For an array, the `ToString()` text of the elements that are present, from
  index 0 on. -/
  elems : List String
  deriving DecidableEq, Repr

/-- The JavaScript value `undefined`. -/
def Value.undefined : Value :=
  { IsString := false, IsArray := false, ToString := "undefined", Length := 0, elems := [] }

/-- The text of `Get(i)->ToString()`: an index with no element reads as `undefined`. -/
def Value.Get (v : Value) (i : Nat) : String :=
  v.elems.getD i "undefined"

/-- The operator `args[i]` of `Arguments`: `undefined` when `i` is out of range. -/
def arg (args : List Value) (i : Nat) : Value :=
  args.getD i Value.undefined

/-- The conversion of a `uint32_t` to `int`. -/
def to_int (n : Nat) : Int :=
  if n % 2 ^ 32 < 2 ^ 31 then ((n % 2 ^ 32 : Nat) : Int) else ((n % 2 ^ 32 : Nat) : Int) - 2 ^ 32

/-- The test of lines 48 to 52. -/
def bad_argument (args : List Value) : Bool :=
  decide (args.length < 4) ||
  !(arg args 0).IsString ||
  !(arg args 1).IsArray ||
  !(arg args 2).IsString ||
  !(arg args 3).IsArray

/-- Lines 69 to 72 and 84 to 87: the loop storing `strdup` of the text of element `i`
in slot `i + offset`, for `i` from 0 up to `count`. -/
def fill (handle : Value) (offset : Nat) (count : Nat) (v : Vec) : Vec :=
  (List.range count).foldl (fun acc i => acc.set (i + offset) (some (strdup (handle.Get i)))) v

/-- Lines 61 to 72: the argument vector.  `none` when `argc + 2` overflows `int` or
`new char*[argv_length]` has no slot 0 to write. -/
def marshal_argv (file : String) (argv_handle : Value) : Option Vec :=
  let argc := to_int argv_handle.Length
  let argv_length := argc + 2
  if argv_length < 1 ∨ 2 ^ 31 ≤ argv_length then none
  else
    let argv : Vec := List.replicate argv_length.toNat none
    let argv := argv.set 0 (some (strdup file))
    let argv := argv.set (argv_length - 1).toNat none
    some (fill argv_handle 1 argc.toNat argv)

/-- Lines 79 to 87: the environment vector.  `none` when `envc + 1` overflows `int` or
`new char*[envc + 1]` has no slot `envc` to write. -/
def marshal_env (env_handle : Value) : Option Vec :=
  let envc := to_int env_handle.Length
  if envc < 0 ∨ 2 ^ 31 ≤ envc + 1 then none
  else
    let env : Vec := List.replicate (envc + 1).toNat none
    let env := env.set envc.toNat none
    some (fill env_handle 0 envc.toNat env)

/-- What the outer `CallSync` hands to the inner one (line 90). -/
structure Marshalled where
  file : Option String
  argv : Vec
  cwd : String
  env : Vec
  deriving DecidableEq, Repr

/-- One call of the outer `CallSync`: what was marshalled, if anything, and the run. -/
structure Call where
  marshalled : Option Marshalled
  run : Run
  deriving DecidableEq, Repr

/-- Lines 56 to 87: the marshalling of the four arguments. -/
def marshal (args : List Value) : Option Marshalled :=
  let file := (arg args 0).ToString
  match marshal_argv file (arg args 1) with
  | none => none
  | some argv =>
    let cwd := strdup (arg args 2).ToString
    match marshal_env (arg args 3) with
    | none => none
    | some env => some { file := argv.getD 0 none, argv := argv, cwd := cwd, env := env }

/-- The outer `CallSync` (lines 45 to 100); `none` when the marshalling is undefined. -/
def CallSyncArguments (os : OS) (args : List Value) (w : World) : Option Call :=
  if bad_argument args then
    some { marshalled := none
           run := { result := Outcome.thrown "Bad argument.", world := w, trace := [] } }
  else
    match marshal args with
    | none => none
    | some m =>
      some { marshalled := some m, run := CallSync os m.file m.argv m.cwd m.env w }

/-- A JavaScript string. -/
def js_string (s : String) : Value :=
  { IsString := true, IsArray := false, ToString := s, Length := 0, elems := [] }

/-- A JavaScript array of strings with no holes. -/
def js_array (l : List String) : Value :=
  { IsString := false, IsArray := true, ToString := ",".intercalate l, Length := l.length,
    elems := l }

/-- A JavaScript array with no element present and the given `length` property. -/
def js_sparse_array (length : Nat) : Value :=
  { IsString := false, IsArray := true, ToString := "", Length := length, elems := [] }

/-! ## Events of a run -/

/-- Whether an event is a call of `vfork`. -/
def Event.is_vfork : Event → Bool
  | Event.vfork _ => true
  | _ => false

/-- Whether an event is a call of `waitpid`. -/
def Event.is_waitpid : Event → Bool
  | Event.waitpid _ _ _ => true
  | _ => false

/-! ## Statement by statement execution of the inner `CallSync`

The same code as `CallSync`, one statement per step, so that two calls made by two
threads of one process can be interleaved.  The source takes no lock anywhere, so no
step waits for another thread.  While the vfork child of a thread runs, that thread is
suspended; the other threads of the process keep running. -/

/-- The statement a call is about to run. -/
inductive Pc where
  /-- Line 109, `char **parent_env = environ`. -/
  | save_environ
  /-- Line 111, `vfork()`. -/
  | at_vfork
  /-- Line 116, in the child: `strlen(cwd) && chdir(cwd)`, with lines 117 and 118. -/
  | child_chdir
  /-- Line 121, in the child: `environ = env`. -/
  | child_environ
  /-- Line 123, in the child: `execvp(file, args)`, with lines 124 and 125. -/
  | child_execvp
  /-- Line 129, in the parent: `environ = parent_env`. -/
  | parent_restore
  /-- Lines 132 to 141, in the parent: `waitpid` and the decoding. -/
  | parent_waitpid
  /-- The call has returned. -/
  | returned
  deriving DecidableEq, Repr

/-- One call of the inner `CallSync` in progress: its parameters, its local variables,
and what it has done so far. -/
structure Thread where
  os : OS
  file : Option String
  args : Vec
  cwd : String
  env : Vec
  pc : Pc
  parent_env : Vec
  fate : Option ChildEnd
  result : Option Outcome
  trace : List Event
  deriving DecidableEq, Repr

/-- A call that is about to start. -/
def Thread.start (os : OS) (file : Option String) (args : Vec) (cwd : String) (env : Vec) :
    Thread :=
  { os := os, file := file, args := args, cwd := cwd, env := env, pc := Pc.save_environ,
    parent_env := [], fate := none, result := none, trace := [] }

/-- One statement of the call, on the memory shared by the whole process. -/
def Thread.step (t : Thread) (w : World) : Thread × World :=
  match t.pc with
  | Pc.save_environ =>
    ({ t with parent_env := w.environ, pc := Pc.at_vfork }, w)
  | Pc.at_vfork =>
    if t.os.vfork = -1 then
      ({ t with trace := t.trace ++ [Event.vfork (-1)]
                result := some (Outcome.integer (-4)), pc := Pc.returned }, w)
    else
      ({ t with trace := t.trace ++ [Event.vfork t.os.vfork], pc := Pc.child_chdir },
       { w with children := t.os.vfork :: w.children })
  | Pc.child_chdir =>
    if strlen t.cwd ≠ 0 then
      if t.os.chdir ≠ 0 then
        ({ t with trace := t.trace ++
                    [Event.chdir t.cwd t.os.chdir, Event.perror "chdir()", Event.exit 127]
                  fate := some (ChildEnd.exited 127), pc := Pc.parent_restore }, w)
      else
        ({ t with trace := t.trace ++ [Event.chdir t.cwd t.os.chdir],
                  pc := Pc.child_environ }, w)
    else
      ({ t with pc := Pc.child_environ }, w)
  | Pc.child_environ =>
    ({ t with trace := t.trace ++ [Event.environ_assign Proc.child t.env],
              pc := Pc.child_execvp },
     { w with environ := t.env })
  | Pc.child_execvp =>
    if t.os.execvp then
      ({ t with trace := t.trace ++ [Event.execvp t.file t.args w.environ true]
                fate := some ChildEnd.replaced, pc := Pc.parent_restore }, w)
    else
      ({ t with trace := t.trace ++
                  [Event.execvp t.file t.args w.environ false, Event.perror "execvp()",
                   Event.exit 127]
                fate := some (ChildEnd.exited 127), pc := Pc.parent_restore }, w)
  | Pc.parent_restore =>
    ({ t with trace := t.trace ++ [Event.environ_assign Proc.parent t.parent_env],
              pc := Pc.parent_waitpid },
     { w with environ := t.parent_env })
  | Pc.parent_waitpid =>
    let status := wait_status t.os (t.fate.getD ChildEnd.replaced)
    ({ t with trace := t.trace ++ [Event.waitpid t.os.vfork 0 status]
              result := some (decode status), pc := Pc.returned },
     { w with children := if terminated status then w.children.erase t.os.vfork
                          else w.children })
  | Pc.returned => (t, w)

/-- The first `n` statements of a call that runs alone. -/
def Thread.run : Nat → Thread → World → Thread × World
  | 0, t, w => (t, w)
  | n + 1, t, w => Thread.run n (t.step w).1 (t.step w).2

/-- The environments the images started by a call were given: the value of `environ`
at each successful `execvp` of its child. -/
def observed (trace : List Event) : List Vec :=
  trace.filterMap fun e =>
    match e with
    | Event.execvp _ _ environ true => some environ
    | _ => none

/-- A process in which two threads each make one call of the inner `CallSync`. -/
structure Process where
  world : World
  first : Thread
  second : Thread
  deriving DecidableEq, Repr

/-- The scheduler lets one of the two threads run its next statement:
`false` the first thread, `true` the second. -/
def Process.step (p : Process) (pick : Bool) : Process :=
  if pick then
    { p with second := (p.second.step p.world).1, world := (p.second.step p.world).2 }
  else
    { p with first := (p.first.step p.world).1, world := (p.first.step p.world).2 }

/-- The process after the scheduler made the given picks in order. -/
def Process.exec (p : Process) (schedule : List Bool) : Process :=
  schedule.foldl Process.step p

/-- The statements of the two calls in turn, the first call stopped just before its
`execvp` while the second call runs up to its own `execvp`. -/
def interleaved : List Bool :=
  [false, false, false, false, true, true, true, true, false, false, false, true, true, true]

/-- The first call from start to return, then the second call from start to return. -/
def sequential : List Bool :=
  List.replicate 7 false ++ List.replicate 7 true

/-- Two calls with disjoint environments, in a process whose own environment is
`HOME=/root`; every system call succeeds and both programs exit with code 0. -/
def two_calls : Process :=
  { world := { environ := [some "HOME=/root", none], children := [] }
    first := Thread.start ⟨41, 0, true, 0⟩ (some "env") [some "env", none] ""
      [some "A=1", none]
    second := Thread.start ⟨42, 0, true, 0⟩ (some "env") [some "env", none] ""
      [some "B=2", none] }

/-! ## Lemmas on the inner `CallSync` -/

/-- The three ways the child branch can go, with the whole run in each. -/
theorem child_trace_cases (os : OS) (file : Option String) (args : Vec) (cwd : String)
    (env : Vec) (w : World) :
    (strlen cwd ≠ 0 ∧ os.chdir ≠ 0 ∧
      child os file args cwd env w =
        { world := w
          trace := [Event.chdir cwd os.chdir, Event.perror "chdir()", Event.exit 127]
          fate := ChildEnd.exited 127 }) ∨
    (¬ (strlen cwd ≠ 0 ∧ os.chdir ≠ 0) ∧ os.execvp = true ∧
      child os file args cwd env w =
        { world := { w with environ := env }
          trace := (if strlen cwd ≠ 0 then [Event.chdir cwd os.chdir] else []) ++
            [Event.environ_assign Proc.child env, Event.execvp file args env true]
          fate := ChildEnd.replaced }) ∨
    (¬ (strlen cwd ≠ 0 ∧ os.chdir ≠ 0) ∧ os.execvp = false ∧
      child os file args cwd env w =
        { world := { w with environ := env }
          trace := (if strlen cwd ≠ 0 then [Event.chdir cwd os.chdir] else []) ++
            [Event.environ_assign Proc.child env, Event.execvp file args env false,
             Event.perror "execvp()", Event.exit 127]
          fate := ChildEnd.exited 127 }) := by
  unfold child
  by_cases h : strlen cwd ≠ 0 ∧ os.chdir ≠ 0
  · left
    simp [h]
  · right
    cases hx : os.execvp
    · right
      simp [h]
    · left
      simp [h]

/-- The child branch never calls `waitpid`. -/
theorem child_no_waitpid (os : OS) (file : Option String) (args : Vec) (cwd : String)
    (env : Vec) (w : World) (pid options status : Int) :
    Event.waitpid pid options status ∉ (child os file args cwd env w).trace := by
  rcases child_trace_cases os file args cwd env w with h | h | h <;>
    (obtain ⟨_, _, h⟩ := h; rw [h]; by_cases hs : strlen cwd ≠ 0 <;> simp [hs])

/-- A raw status `N << 8` satisfies `WIFEXITED`. -/
theorem wifexited_shift (N : Int) : WIFEXITED (N * 256) = true := by
  simp [WIFEXITED]; omega

/-- `WEXITSTATUS` always lies in 0..255. -/
theorem wexitstatus_range (s : Int) : 0 ≤ WEXITSTATUS s ∧ WEXITSTATUS s ≤ 255 := by
  unfold WEXITSTATUS; omega

/-- `WEXITSTATUS` of `N << 8` is `N` for `N` in 0..255. -/
theorem wexitstatus_shift (N : Int) (h0 : 0 ≤ N) (h1 : N ≤ 255) : WEXITSTATUS (N * 256) = N := by
  unfold WEXITSTATUS; omega

/-- No raw status satisfies both `WIFEXITED` and `WIFSIGNALED`. -/
theorem not_exited_and_signaled (s : Int) : ¬ (WIFEXITED s = true ∧ WIFSIGNALED s = true) := by
  simp only [WIFEXITED, WIFSIGNALED, signed_char, beq_iff_eq, decide_eq_true_eq]
  rintro ⟨h1, h2⟩
  split_ifs at h2 <;> omega

/-- A `waitpid` event of a run is on the pid `vfork` returned, with options 0, and the result of the run decodes its status. -/
theorem CallSync_waitpid_event (os : OS) (file : Option String) (args : Vec) (cwd : String)
    (env : Vec) (w : World) (pid options status : Int)
    (h : Event.waitpid pid options status ∈ (CallSync os file args cwd env w).trace) :
    os.vfork ≠ -1 ∧ pid = os.vfork ∧ options = 0 ∧
    (CallSync os file args cwd env w).result = decode status := by
  unfold CallSync at h ⊢
  by_cases hv : os.vfork = -1
  · simp [hv] at h
  · simp only [hv, if_false] at h ⊢
    simp [child_no_waitpid] at h
    obtain ⟨h1, h2, h3⟩ := h
    simp [hv, h1, h2, h3]


/-- The decoding of a status with `WIFEXITED`. -/
theorem decode_exited (status : Int) (h : WIFEXITED status = true) :
    decode status = Outcome.integer (WEXITSTATUS status) := by
  simp [decode, h]

/-- The decoding of a status with `WIFSIGNALED`. -/
theorem decode_signaled (status : Int) (h : WIFSIGNALED status = true) :
    decode status = Outcome.thrown "Child terminated by signal." := by
  have hne : WIFEXITED status = false := by
    cases hx : WIFEXITED status
    · rfl
    · exact absurd ⟨hx, h⟩ (not_exited_and_signaled status)
  simp [decode, hne, h]

/-- The decoding never yields the bad argument error. -/
theorem decode_ne_bad (status : Int) : decode status ≠ Outcome.thrown "Bad argument." := by
  unfold decode
  split_ifs <;> simp

/-- C1: whenever `waitpid` stored a raw status for which `WIFEXITED` holds, the inner
`CallSync` returns the integer `WEXITSTATUS(status)`, which lies in 0..255; and for every
`N` in 0..255, when the raw status is `N << 8` the call returns exactly `N`. -/
theorem CallSync_exit_status_decoding (os : OS) (file : Option String) (args : Vec)
    (cwd : String) (env : Vec) (w : World) (pid status : Int)
    (hwait : Event.waitpid pid 0 status ∈ (CallSync os file args cwd env w).trace) :
    (WIFEXITED status = true →
      (CallSync os file args cwd env w).result = Outcome.integer (WEXITSTATUS status) ∧
      0 ≤ WEXITSTATUS status ∧ WEXITSTATUS status ≤ 255) ∧
    (∀ N : Int, 0 ≤ N → N ≤ 255 → status = N * 256 →
      (CallSync os file args cwd env w).result = Outcome.integer N) := by
  obtain ⟨_, _, _, hres⟩ := CallSync_waitpid_event os file args cwd env w pid 0 status hwait
  refine ⟨fun hex => ⟨?_, wexitstatus_range status⟩, fun N h0 h1 hN => ?_⟩
  · rw [hres, decode_exited status hex]
  · rw [hres, hN]; simp [decode, wifexited_shift, wexitstatus_shift N h0 h1]

theorem CallSync_exit_status_decoding_witness :
    Event.waitpid 42 0 768 ∈
      (CallSync ⟨42, 0, true, 768⟩ (some "/bin/sh") [some "/bin/sh", none] "" [none]
        ⟨[some "HOME=/root", none], []⟩).trace ∧
    (CallSync ⟨42, 0, true, 768⟩ (some "/bin/sh") [some "/bin/sh", none] "" [none]
        ⟨[some "HOME=/root", none], []⟩).result = Outcome.integer 3 :=
  ⟨by decide,
   (CallSync_exit_status_decoding ⟨42, 0, true, 768⟩ (some "/bin/sh") [some "/bin/sh", none] ""
      [none] ⟨[some "HOME=/root", none], []⟩ 42 768 (by decide)).2 3 (by decide) (by decide)
      (by decide)⟩

/-- C2: whenever `waitpid` stored a raw status for which `WIFSIGNALED` holds, the inner
`CallSync` throws "Child terminated by signal." and returns no integer; no raw status
satisfies both `WIFEXITED` and `WIFSIGNALED`, so the earlier `WIFEXITED` test does not
shadow this branch. -/
theorem CallSync_signal_termination (os : OS) (file : Option String) (args : Vec)
    (cwd : String) (env : Vec) (w : World) (pid status : Int)
    (hwait : Event.waitpid pid 0 status ∈ (CallSync os file args cwd env w).trace)
    (hsig : WIFSIGNALED status = true) :
    (CallSync os file args cwd env w).result = Outcome.thrown "Child terminated by signal." ∧
    (∀ n : Int, (CallSync os file args cwd env w).result ≠ Outcome.integer n) ∧
    (∀ s : Int, ¬ (WIFEXITED s = true ∧ WIFSIGNALED s = true)) := by
  obtain ⟨_, _, _, hres⟩ := CallSync_waitpid_event os file args cwd env w pid 0 status hwait
  have : (CallSync os file args cwd env w).result =
      Outcome.thrown "Child terminated by signal." := by
    rw [hres, decode_signaled status hsig]
  refine ⟨this, fun n => ?_, not_exited_and_signaled⟩
  rw [this]; simp

theorem CallSync_signal_termination_witness :
    WIFSIGNALED 9 = true ∧
    (CallSync ⟨42, 0, true, 9⟩ (some "/bin/sh") [some "/bin/sh", none] "" [none]
        ⟨[some "HOME=/root", none], []⟩).result =
      Outcome.thrown "Child terminated by signal." :=
  ⟨by decide,
   (CallSync_signal_termination ⟨42, 0, true, 9⟩ (some "/bin/sh") [some "/bin/sh", none] ""
      [none] ⟨[some "HOME=/root", none], []⟩ 42 9 (by decide) (by decide)).1⟩

/-- C3: when `vfork` returns -1 the inner `CallSync` returns the integer -4 and creates
nothing; that value differs from every exit code 0..255, and from the result of every
run in which a child was created and then exited normally or was killed by a signal. -/
theorem CallSync_spawn_failure_distinct (os : OS) (file : Option String) (args : Vec)
    (cwd : String) (env : Vec) (w : World) (hfail : os.vfork = -1) :
    (CallSync os file args cwd env w).result = Outcome.integer (-4) ∧
    (CallSync os file args cwd env w).trace = [Event.vfork (-1)] ∧
    (∀ code : Int, 0 ≤ code → code ≤ 255 →
      (CallSync os file args cwd env w).result ≠ Outcome.integer code) ∧
    (∀ (os2 : OS) (file2 : Option String) (args2 : Vec) (cwd2 : String) (env2 : Vec)
        (w2 : World) (pid status : Int),
      Event.waitpid pid 0 status ∈ (CallSync os2 file2 args2 cwd2 env2 w2).trace →
      (WIFEXITED status = true ∨ WIFSIGNALED status = true) →
      (CallSync os2 file2 args2 cwd2 env2 w2).result ≠
        (CallSync os file args cwd env w).result) := by
  have hres : (CallSync os file args cwd env w).result = Outcome.integer (-4) := by
    simp [CallSync, hfail]
  refine ⟨hres, by simp [CallSync, hfail], fun code h0 _ => ?_, ?_⟩
  · rw [hres]; intro h; injection h with h; omega
  · intro os2 file2 args2 cwd2 env2 w2 pid status hwait hkind
    obtain ⟨_, _, _, hres2⟩ :=
      CallSync_waitpid_event os2 file2 args2 cwd2 env2 w2 pid 0 status hwait
    rw [hres, hres2]
    rcases hkind with hex | hsig
    · rw [decode_exited status hex]
      intro heq; injection heq with heq
      have := (wexitstatus_range status).1; omega
    · rw [decode_signaled status hsig]; simp

theorem CallSync_spawn_failure_distinct_witness :
    (⟨-1, 0, true, 0⟩ : OS).vfork = -1 ∧
    (CallSync ⟨-1, 0, true, 0⟩ (some "/bin/sh") [some "/bin/sh", none] "" [none]
        ⟨[some "HOME=/root", none], []⟩).result = Outcome.integer (-4) :=
  ⟨by decide,
   (CallSync_spawn_failure_distinct ⟨-1, 0, true, 0⟩ (some "/bin/sh") [some "/bin/sh", none] ""
      [none] ⟨[some "HOME=/root", none], []⟩ (by decide)).1⟩


/-- The fate and the events of the child do not depend on the process state. -/
theorem child_fate_world (os : OS) (file : Option String) (args : Vec) (cwd : String)
    (env : Vec) (w w2 : World) :
    (child os file args cwd env w).fate = (child os file args cwd env w2).fate ∧
    (child os file args cwd env w).trace = (child os file args cwd env w2).trace := by
  unfold child
  by_cases h : strlen cwd ≠ 0 ∧ os.chdir ≠ 0
  · simp [h]
  · cases hx : os.execvp <;> simp [h]

/-- C8: on every path of the inner `CallSync` the global `environ` holds on return the
vector it held on entry, although the vfork child that reaches `execvp` has assigned
`environ = env` in the shared memory; when a child was created the last two events of
the call are the parent assigning the saved vector back, then `waitpid`. -/
theorem CallSync_environ_restored (os : OS) (file : Option String) (args : Vec)
    (cwd : String) (env : Vec) (w : World) :
    (CallSync os file args cwd env w).world.environ = w.environ ∧
    (¬ (strlen cwd ≠ 0 ∧ os.chdir ≠ 0) →
      (child os file args cwd env w).world.environ = env) ∧
    (os.vfork = -1 →
      ∀ (who : Proc) (v : Vec),
        Event.environ_assign who v ∉ (CallSync os file args cwd env w).trace) ∧
    (os.vfork ≠ -1 →
      (CallSync os file args cwd env w).trace =
        Event.vfork os.vfork ::
          (child os file args cwd env { w with children := os.vfork :: w.children }).trace ++
          [Event.environ_assign Proc.parent w.environ,
           Event.waitpid os.vfork 0
             (wait_status os (child os file args cwd env w).fate)]) := by
  refine ⟨?_, ?_, ?_, ?_⟩
  · unfold CallSync
    by_cases hv : os.vfork = -1 <;> simp [hv]
  · intro h
    rcases child_trace_cases os file args cwd env w with h2 | h2 | h2
    · exact absurd ⟨h2.1, h2.2.1⟩ h
    · rw [h2.2.2]
    · rw [h2.2.2]
  · intro hv who v
    simp [CallSync, hv]
  · intro hv
    have hf := (child_fate_world os file args cwd env w
      { w with children := os.vfork :: w.children }).1
    simp [CallSync, hv, hf]

/-- The child branch calls neither `vfork` nor `waitpid`. -/
theorem child_trace_filter (os : OS) (file : Option String) (args : Vec) (cwd : String)
    (env : Vec) (w : World) :
    (child os file args cwd env w).trace.filter Event.is_vfork = [] ∧
    (child os file args cwd env w).trace.filter Event.is_waitpid = [] := by
  rcases child_trace_cases os file args cwd env w with h | h | h <;>
    (obtain ⟨_, _, h⟩ := h; rw [h];
      by_cases hs : strlen cwd ≠ 0 <;> simp [hs, Event.is_vfork, Event.is_waitpid])

theorem CallSync_environ_restored_witness :
    (CallSync ⟨42, 0, true, 0⟩ (some "ls") [some "ls", none] "" [some "A=1", none]
      ⟨[some "HOME=/root", none], []⟩).world.environ = [some "HOME=/root", none] ∧
    (child ⟨42, 0, true, 0⟩ (some "ls") [some "ls", none] "" [some "A=1", none]
      ⟨[some "HOME=/root", none], []⟩).world.environ = [some "A=1", none] :=
  ⟨(CallSync_environ_restored ⟨42, 0, true, 0⟩ (some "ls") [some "ls", none] ""
      [some "A=1", none] ⟨[some "HOME=/root", none], []⟩).1,
   (CallSync_environ_restored ⟨42, 0, true, 0⟩ (some "ls") [some "ls", none] ""
      [some "A=1", none] ⟨[some "HOME=/root", none], []⟩).2.1 (by decide)⟩

/-- The system calls of a run: `vfork` is called exactly once, first; when it fails
nothing is waited for and the unreaped children are unchanged; when it yields a pid,
`waitpid` is called exactly once, on that pid with options 0, as the last event before
the result, and the child is off the unreaped children exactly when the stored status
says it has terminated. -/
theorem CallSync_vfork_waitpid_trace (os : OS) (file : Option String) (args : Vec)
    (cwd : String) (env : Vec) (w : World) :
    (CallSync os file args cwd env w).trace.filter Event.is_vfork = [Event.vfork os.vfork] ∧
    (CallSync os file args cwd env w).trace.head? = some (Event.vfork os.vfork) ∧
    (os.vfork = -1 →
      (CallSync os file args cwd env w).trace.filter Event.is_waitpid = [] ∧
      (CallSync os file args cwd env w).world.children = w.children) ∧
    (os.vfork ≠ -1 →
      (child os file args cwd env { w with children := os.vfork :: w.children }).world.children
        = os.vfork :: w.children ∧
      (CallSync os file args cwd env w).trace.filter Event.is_waitpid =
        [Event.waitpid os.vfork 0 (wait_status os (child os file args cwd env w).fate)] ∧
      (CallSync os file args cwd env w).trace.getLast? =
        some (Event.waitpid os.vfork 0 (wait_status os (child os file args cwd env w).fate)) ∧
      (CallSync os file args cwd env w).result =
        decode (wait_status os (child os file args cwd env w).fate) ∧
      (CallSync os file args cwd env w).world.children =
        if terminated (wait_status os (child os file args cwd env w).fate) then w.children
        else os.vfork :: w.children) := by
  have hf := (child_fate_world os file args cwd env w
    { w with children := os.vfork :: w.children }).1
  have hfl := child_trace_filter os file args cwd env
    { w with children := os.vfork :: w.children }
  have hch : (child os file args cwd env
      { w with children := os.vfork :: w.children }).world.children = os.vfork :: w.children := by
    rcases child_trace_cases os file args cwd env
      { w with children := os.vfork :: w.children } with h | h | h <;>
      (obtain ⟨_, _, h⟩ := h; rw [h])
  by_cases hv : os.vfork = -1
  · simp [CallSync, hv, Event.is_vfork, Event.is_waitpid]
  · refine ⟨?_, ?_, fun h => absurd h hv, fun _ => ⟨hch, ?_, ?_, ?_, ?_⟩⟩
    · simp [CallSync, hv, List.filter_cons, Event.is_vfork, hfl.1]
    · simp [CallSync, hv]
    · simp [CallSync, hv, List.filter_cons, Event.is_waitpid, hfl.2, hf]
    · simp only [CallSync, hv, if_false, hf]
      rw [List.getLast?_append]
      simp
    · simp [CallSync, hv, hf]
    · simp only [CallSync, hv, if_false, hf, hch]
      by_cases ht : terminated (wait_status os
          (child os file args cwd env { w with children := os.vfork :: w.children }).fate) = true
      · simp [ht]
      · simp [ht]

/-- C9, at the failing input: the program run by the child has itself traced by its
parent and stops itself, so `waitpid` stores the status 4991 (stopped by signal 19).
That status is neither exited nor signalled; the call throws "Child exited
abnormally." right after its single `waitpid`, and the child, which has not
terminated, is still among the unreaped children when the call returns. -/
theorem CallSync_unreaped_child :
    WIFEXITED 4991 = false ∧ WIFSIGNALED 4991 = false ∧
    (CallSync ⟨42, 0, true, 4991⟩ (some "./traceme") [some "./traceme", none] "" [none]
      ⟨[some "HOME=/root", none], []⟩).result = Outcome.thrown "Child exited abnormally." ∧
    (CallSync ⟨42, 0, true, 4991⟩ (some "./traceme") [some "./traceme", none] "" [none]
      ⟨[some "HOME=/root", none], []⟩).trace =
      [Event.vfork 42, Event.environ_assign Proc.child [none],
       Event.execvp (some "./traceme") [some "./traceme", none] [none] true,
       Event.environ_assign Proc.parent [some "HOME=/root", none],
       Event.waitpid 42 0 4991] ∧
    (CallSync ⟨42, 0, true, 4991⟩ (some "./traceme") [some "./traceme", none] "" [none]
      ⟨[some "HOME=/root", none], []⟩).world.children = [42] := by
  decide

/-! ## Lemmas on the marshalling -/

/-- The loop keeps the number of slots. -/
theorem fill_length (handle : Value) (offset count : Nat) (v : Vec) :
    (fill handle offset count v).length = v.length := by
  induction count with
  | zero => simp [fill]
  | succ n ih =>
    unfold fill at ih ⊢
    rw [List.range_succ, List.foldl_append]
    simp [ih]

/-- The slots after the loop: the slots `offset` to `offset + count - 1` hold the copied texts, the others are untouched. -/
theorem fill_getElem (handle : Value) (offset count : Nat) (v : Vec) (j : Nat) :
    (fill handle offset count v)[j]? =
      if offset ≤ j ∧ j < offset + count ∧ j < v.length
      then some (some (strdup (handle.Get (j - offset))))
      else v[j]? := by
  induction count with
  | zero =>
    have : ¬ (offset ≤ j ∧ j < offset + 0 ∧ j < v.length) := by omega
    rw [if_neg this]
    simp [fill]
  | succ n ih =>
    have hlen := fill_length handle offset n v
    unfold fill at ih hlen ⊢
    rw [List.range_succ, List.foldl_append]
    simp only [List.foldl_cons, List.foldl_nil]
    rw [List.getElem?_set, hlen, ih]
    by_cases h1 : n + offset = j
    · subst h1
      by_cases h2 : n + offset < v.length
      · have : offset ≤ n + offset ∧ n + offset < offset + (n + 1) ∧ n + offset < v.length := by
          omega
        rw [if_pos this, if_pos rfl, if_pos h2]
        simp
      · have h3 : ¬ (offset ≤ n + offset ∧ n + offset < offset + (n + 1) ∧
            n + offset < v.length) := by omega
        have h4 : v[n + offset]? = none := List.getElem?_eq_none (by omega)
        rw [if_neg h3, if_pos rfl, if_neg h2, h4]
    · rw [if_neg h1]
      by_cases h2 : offset ≤ j ∧ j < offset + n ∧ j < v.length
      · have : offset ≤ j ∧ j < offset + (n + 1) ∧ j < v.length := by omega
        rw [if_pos h2, if_pos this]
      · have : ¬ (offset ≤ j ∧ j < offset + (n + 1) ∧ j < v.length) := by omega
        rw [if_neg h2, if_neg this]

/-- The conversion to `int` keeps a value below `2 ^ 31`. -/
theorem to_int_small (n : Nat) (h : n < 2 ^ 31) : to_int n = (n : Int) := by
  unfold to_int
  have h1 : n % 2 ^ 32 = n := Nat.mod_eq_of_lt (by omega)
  rw [h1, if_pos h]

/-- `strdup` copies a string with no NUL whole. -/
theorem strdup_no_nul (s : String) (h : NUL ∉ s.data) : strdup s = s := by
  unfold strdup
  have : s.data.takeWhile (fun c => c != NUL) = s.data := by
    rw [List.takeWhile_eq_self_iff]
    intro x hx
    simp only [bne_iff_ne, ne_eq]
    intro hc
    exact h (hc ▸ hx)
  rw [this]

/-- The argument vector when `argc + 2` is in the range of `int`. -/
theorem marshal_argv_eq (file : String) (a : Value) (h : a.Length + 2 < 2 ^ 31) :
    marshal_argv file a =
      some (fill a 1 a.Length
        (((List.replicate (a.Length + 2) (none : Option String)).set 0
          (some (strdup file))).set (a.Length + 1) none)) := by
  have hi : to_int a.Length = (a.Length : Int) := to_int_small _ (by omega)
  have h1 : ¬ ((a.Length : Int) + 2 < 1 ∨ (2 : Int) ^ 31 ≤ (a.Length : Int) + 2) := by
    have : ((a.Length : Int) + 2) < 2 ^ 31 := by exact_mod_cast h
    omega
  have e1 : ((a.Length : Int) + 2).toNat = a.Length + 2 := by omega
  have e2 : ((a.Length : Int) + 2 - 1).toNat = a.Length + 1 := by omega
  have e3 : ((a.Length : Int)).toNat = a.Length := by omega
  simp only [marshal_argv, hi, h1, if_false, e1, e2, e3]

/-- The slots of the argument vector when `argc + 2` is in the range of `int`. -/
theorem marshal_argv_spec (file : String) (a : Value) (h : a.Length + 2 < 2 ^ 31) :
    ∃ v : Vec, marshal_argv file a = some v ∧
      v.length = a.Length + 2 ∧
      v[0]? = some (some (strdup file)) ∧
      (∀ i, i < a.Length → v[i + 1]? = some (some (strdup (a.Get i)))) ∧
      v[a.Length + 1]? = some none := by
  refine ⟨_, marshal_argv_eq file a h, ?_, ?_, ?_, ?_⟩
  · simp [fill_length]
  · rw [fill_getElem, if_neg (by omega)]
    simp [List.getElem?_set]
  · intro i hlt
    rw [fill_getElem, if_pos (by simp; omega)]
    simp
  · rw [fill_getElem, if_neg (by omega)]
    simp [List.getElem?_set]

/-- The environment vector when `envc + 1` is in the range of `int`. -/
theorem marshal_env_eq (a : Value) (h : a.Length + 1 < 2 ^ 31) :
    marshal_env a =
      some (fill a 0 a.Length
        ((List.replicate (a.Length + 1) (none : Option String)).set a.Length none)) := by
  have hi : to_int a.Length = (a.Length : Int) := to_int_small _ (by omega)
  have h1 : ¬ ((a.Length : Int) < 0 ∨ (2 : Int) ^ 31 ≤ (a.Length : Int) + 1) := by
    have : ((a.Length : Int) + 1) < 2 ^ 31 := by exact_mod_cast h
    omega
  have e1 : ((a.Length : Int) + 1).toNat = a.Length + 1 := by omega
  have e3 : ((a.Length : Int)).toNat = a.Length := by omega
  simp only [marshal_env, hi, h1, if_false, e1, e3]

/-- The slots of the environment vector when `envc + 1` is in the range of `int`. -/
theorem marshal_env_spec (a : Value) (h : a.Length + 1 < 2 ^ 31) :
    ∃ v : Vec, marshal_env a = some v ∧
      v.length = a.Length + 1 ∧
      (∀ i, i < a.Length → v[i]? = some (some (strdup (a.Get i)))) ∧
      v[a.Length]? = some none := by
  refine ⟨_, marshal_env_eq a h, ?_, ?_, ?_⟩
  · simp [fill_length]
  · intro i hlt
    rw [fill_getElem, if_pos (by simp; omega)]
    simp
  · rw [fill_getElem, if_neg (by omega)]
    simp [List.getElem?_set]


/-- An `execvp` event of a run carries the file, the vector and the environment passed to `CallSync`. -/
theorem CallSync_execvp_event (os : OS) (file : Option String) (args : Vec) (cwd : String)
    (env : Vec) (w : World) (f : Option String) (a e : Vec) (b : Bool)
    (h : Event.execvp f a e b ∈ (CallSync os file args cwd env w).trace) :
    f = file ∧ a = args ∧ e = env ∧ b = os.execvp := by
  unfold CallSync at h
  by_cases hv : os.vfork = -1
  · simp [hv] at h
  · simp only [hv, if_false] at h
    rcases child_trace_cases os file args cwd env
      { w with children := os.vfork :: w.children } with h2 | h2 | h2 <;>
      (obtain ⟨_, hx, h2⟩ := h2; rw [h2] at h;
        by_cases hs : strlen cwd ≠ 0 <;> simp [hs] at h <;> simp_all)

/-- The inner `CallSync` never yields the bad argument error. -/
theorem CallSync_result_ne_bad (os : OS) (file : Option String) (args : Vec) (cwd : String)
    (env : Vec) (w : World) :
    (CallSync os file args cwd env w).result ≠ Outcome.thrown "Bad argument." := by
  unfold CallSync
  by_cases hv : os.vfork = -1
  · simp [hv]
  · simp only [hv, if_false]
    exact decode_ne_bad _

/-- The outer `CallSync` on arguments that pass the test and stay in the range of `int`. -/
theorem CallSyncArguments_marshalled (os : OS) (args : List Value) (w : World)
    (hok : bad_argument args = false)
    (hargc : (arg args 1).Length + 2 < 2 ^ 31)
    (henvc : (arg args 3).Length + 1 < 2 ^ 31) :
    ∃ (argv env : Vec),
      marshal_argv (arg args 0).ToString (arg args 1) = some argv ∧
      marshal_env (arg args 3) = some env ∧
      marshal args =
        some { file := argv.getD 0 none, argv := argv, cwd := strdup (arg args 2).ToString,
               env := env } ∧
      CallSyncArguments os args w =
        some { marshalled := some { file := argv.getD 0 none, argv := argv,
                                    cwd := strdup (arg args 2).ToString, env := env }
               run := CallSync os (argv.getD 0 none) argv (strdup (arg args 2).ToString) env w } := by
  obtain ⟨argv, h1, -⟩ := marshal_argv_spec (arg args 0).ToString (arg args 1) hargc
  obtain ⟨env, h2, -⟩ := marshal_env_spec (arg args 3) henvc
  refine ⟨argv, env, h1, h2, ?_, ?_⟩
  · simp [marshal, h1, h2]
  · simp [CallSyncArguments, hok, marshal, h1, h2]

/-- C4: the outer `CallSync` throws "Bad argument." exactly when fewer than four
arguments are given, or argument 0 is not a string, or argument 1 is not an array, or
argument 2 is not a string, or argument 3 is not an array; and when it throws this
error nothing was marshalled, no system call was made and the process is unchanged. -/
theorem CallSync_bad_argument (os : OS) (args : List Value) (w : World) :
    ((CallSyncArguments os args w).map (fun c => c.run.result) =
        some (Outcome.thrown "Bad argument.") ↔
      (args.length < 4 ∨ (arg args 0).IsString = false ∨ (arg args 1).IsArray = false ∨
        (arg args 2).IsString = false ∨ (arg args 3).IsArray = false)) ∧
    ((CallSyncArguments os args w).map (fun c => c.run.result) =
        some (Outcome.thrown "Bad argument.") →
      CallSyncArguments os args w =
        some { marshalled := none
               run := { result := Outcome.thrown "Bad argument.", world := w, trace := [] } }) := by
  have hcond : bad_argument args = true ↔
      (args.length < 4 ∨ (arg args 0).IsString = false ∨ (arg args 1).IsArray = false ∨
        (arg args 2).IsString = false ∨ (arg args 3).IsArray = false) := by
    simp [bad_argument, or_assoc]
  have hthrow : (CallSyncArguments os args w).map (fun c => c.run.result) =
      some (Outcome.thrown "Bad argument.") → bad_argument args = true := by
    intro h
    by_contra hb
    simp only [Bool.not_eq_true] at hb
    unfold CallSyncArguments at h
    simp only [hb, Bool.false_eq_true, if_false] at h
    cases hm : marshal args with
    | none => simp [hm] at h
    | some m =>
      simp only [hm, Option.map, Option.some.injEq] at h
      exact CallSync_result_ne_bad _ _ _ _ _ _ h
  refine ⟨⟨fun h => hcond.mp (hthrow h), fun h => ?_⟩, fun h => ?_⟩
  · simp [CallSyncArguments, hcond.mpr h]
  · simp [CallSyncArguments, hthrow h]

theorem CallSync_bad_argument_witness :
    (CallSyncArguments ⟨42, 0, true, 0⟩
        [js_string "ls", js_array ["-l"], js_string ""] ⟨[some "HOME=/root", none], []⟩).map
      (fun c => c.run.result) = some (Outcome.thrown "Bad argument.") ∧
    CallSyncArguments ⟨42, 0, true, 0⟩
        [js_string "ls", js_array ["-l"], js_string ""] ⟨[some "HOME=/root", none], []⟩ =
      some { marshalled := none
             run := { result := Outcome.thrown "Bad argument."
                      world := ⟨[some "HOME=/root", none], []⟩, trace := [] } } :=
  ⟨by decide,
   (CallSync_bad_argument ⟨42, 0, true, 0⟩
      [js_string "ls", js_array ["-l"], js_string ""] ⟨[some "HOME=/root", none], []⟩).2
      (by decide)⟩

/-- C5, as stated, fails for a program string with an embedded NUL: for the program
"a\0b" and the argument array ["-l"] slot 0 of the vector is "a", not the program
string, so the vector is not [program, "-l", NULL]. -/
theorem argument_vector_nul_counterexample :
    (marshal [js_string "a\x00b", js_array ["-l"], js_string "", js_array []]).map
        (fun m => (m.file, m.argv)) = some (some "a", [some "a", some "-l", none]) ∧
    (marshal [js_string "a\x00b", js_array ["-l"], js_string "", js_array []]).map
        (fun m => (m.file, m.argv)) ≠ some (some "a\x00b", [some "a\x00b", some "-l", none]) := by
  decide

/-- C5, amended: when the arguments pass the test, the argument array has length `n`
with `n + 2` in the range of `int` and the environment array has its length plus one in
that range, the vector handed to the inner `CallSync` has exactly `n + 2` slots; slot 0
is the C string of the program, that is its characters before the first NUL (the
program string itself when it has no NUL); slot `i + 1` is likewise the C string of the
text of element `i`; the last slot is `NULL`; the file parameter is slot 0; and every
`execvp` of the run is given that file and that vector. -/
theorem CallSync_argument_vector (os : OS) (args : List Value) (w : World)
    (hok : bad_argument args = false)
    (hargc : (arg args 1).Length + 2 < 2 ^ 31)
    (henvc : (arg args 3).Length + 1 < 2 ^ 31) :
    ∃ (c : Call) (m : Marshalled),
      CallSyncArguments os args w = some c ∧ c.marshalled = some m ∧
      c.run = CallSync os m.file m.argv m.cwd m.env w ∧
      m.argv.length = (arg args 1).Length + 2 ∧
      m.argv[0]? = some (some (strdup (arg args 0).ToString)) ∧
      (NUL ∉ (arg args 0).ToString.data → m.argv[0]? = some (some (arg args 0).ToString)) ∧
      (∀ i, i < (arg args 1).Length →
        m.argv[i + 1]? = some (some (strdup ((arg args 1).Get i))) ∧
        (NUL ∉ ((arg args 1).Get i).data →
          m.argv[i + 1]? = some (some ((arg args 1).Get i)))) ∧
      m.argv[(arg args 1).Length + 1]? = some none ∧
      some m.file = m.argv[0]? ∧
      (∀ (f : Option String) (a e : Vec) (b : Bool),
        Event.execvp f a e b ∈ c.run.trace → f = m.file ∧ a = m.argv) := by
  obtain ⟨argv, env, h1, h2, -, h3⟩ := CallSyncArguments_marshalled os args w hok hargc henvc
  obtain ⟨v, hv, hlen, h0, hi, hl⟩ := marshal_argv_spec (arg args 0).ToString (arg args 1) hargc
  rw [h1] at hv
  cases hv
  refine ⟨_, _, h3, rfl, rfl, hlen, h0, ?_, ?_, hl, ?_, ?_⟩
  · intro hn
    rw [h0, strdup_no_nul _ hn]
  · intro i hlt
    refine ⟨hi i hlt, fun hn => ?_⟩
    rw [hi i hlt, strdup_no_nul _ hn]
  · simp [List.getD_eq_getElem?_getD, h0]
  · intro f a e b hmem
    have := CallSync_execvp_event _ _ _ _ _ _ f a e b hmem
    exact ⟨this.1, this.2.1⟩

theorem CallSync_argument_vector_witness :
    ∃ (c : Call) (m : Marshalled),
      CallSyncArguments ⟨42, 0, true, 0⟩
        [js_string "ls", js_array ["-l", "/tmp"], js_string "", js_array ["A=1"]]
        ⟨[some "HOME=/root", none], []⟩ = some c ∧ c.marshalled = some m ∧
      m.argv.length = 4 ∧ m.argv[3]? = some none :=
  let ⟨c, m, h1, h2, _, h4, _, _, _, h8, _⟩ :=
    CallSync_argument_vector ⟨42, 0, true, 0⟩
      [js_string "ls", js_array ["-l", "/tmp"], js_string "", js_array ["A=1"]]
      ⟨[some "HOME=/root", none], []⟩ (by decide) (by decide) (by decide)
  ⟨c, m, h1, h2, h4, h8⟩

/-- C6, as stated, fails for an environment entry with an embedded NUL: for the
environment array ["A=1\0B=2"] slot 0 of the vector is "A=1", not the text of the
entry, so the vector is not [entry, NULL]. -/
theorem environment_vector_nul_counterexample :
    (marshal [js_string "/usr/bin/env", js_array [], js_string "",
        js_array ["A=1\x00B=2"]]).map (fun m => m.env) = some [some "A=1", none] ∧
    (marshal [js_string "/usr/bin/env", js_array [], js_string "",
        js_array ["A=1\x00B=2"]]).map (fun m => m.env) ≠ some [some "A=1\x00B=2", none] := by
  decide

/-- C6, amended: when the arguments pass the test, the environment array has length `m`
with `m + 1` in the range of `int` and the argument array has its length plus two in
that range, the environment vector has exactly `m + 1` slots; slot `i` is the C string
of the text of entry `i`, that is its characters before the first NUL (the text itself
when it has no NUL); slot `m` is `NULL`; every entry of the vector comes from the
array; and whenever the child calls `execvp` the global `environ` is exactly this
vector. -/
theorem CallSync_environment_vector (os : OS) (args : List Value) (w : World)
    (hok : bad_argument args = false)
    (hargc : (arg args 1).Length + 2 < 2 ^ 31)
    (henvc : (arg args 3).Length + 1 < 2 ^ 31) :
    ∃ (c : Call) (m : Marshalled),
      CallSyncArguments os args w = some c ∧ c.marshalled = some m ∧
      c.run = CallSync os m.file m.argv m.cwd m.env w ∧
      m.env.length = (arg args 3).Length + 1 ∧
      (∀ i, i < (arg args 3).Length →
        m.env[i]? = some (some (strdup ((arg args 3).Get i))) ∧
        (NUL ∉ ((arg args 3).Get i).data →
          m.env[i]? = some (some ((arg args 3).Get i)))) ∧
      m.env[(arg args 3).Length]? = some none ∧
      (∀ s : String, some s ∈ m.env →
        ∃ i, i < (arg args 3).Length ∧ s = strdup ((arg args 3).Get i)) ∧
      (∀ (f : Option String) (a e : Vec) (b : Bool),
        Event.execvp f a e b ∈ c.run.trace → e = m.env) := by
  obtain ⟨argv, env, h1, h2, -, h3⟩ := CallSyncArguments_marshalled os args w hok hargc henvc
  obtain ⟨v, hv, hlen, hi, hl⟩ := marshal_env_spec (arg args 3) henvc
  rw [h2] at hv
  cases hv
  refine ⟨_, _, h3, rfl, rfl, hlen, ?_, hl, ?_, ?_⟩
  · intro i hlt
    refine ⟨hi i hlt, fun hn => ?_⟩
    rw [hi i hlt, strdup_no_nul _ hn]
  · intro s hs
    have hs2 : some s ∈ env := hs
    obtain ⟨j, hj⟩ := List.mem_iff_getElem?.mp hs2
    have hjl : j < env.length := by
      by_contra hge
      rw [List.getElem?_eq_none (by omega)] at hj
      cases hj
    by_cases hjn : j < (arg args 3).Length
    · refine ⟨j, hjn, ?_⟩
      rw [hi j hjn] at hj
      injection hj with hj
      injection hj with hj
      exact hj.symm
    · have : j = (arg args 3).Length := by omega
      rw [this, hl] at hj
      cases hj
  · intro f a e b hmem
    exact (CallSync_execvp_event _ _ _ _ _ _ f a e b hmem).2.2.1

theorem CallSync_environment_vector_witness :
    ∃ (c : Call) (m : Marshalled),
      CallSyncArguments ⟨42, 0, true, 0⟩
        [js_string "ls", js_array ["-l", "/tmp"], js_string "", js_array ["A=1"]]
        ⟨[some "HOME=/root", none], []⟩ = some c ∧ c.marshalled = some m ∧
      m.env.length = 2 ∧ m.env[1]? = some none :=
  let ⟨c, m, h1, h2, _, h4, _, h6, _⟩ :=
    CallSync_environment_vector ⟨42, 0, true, 0⟩
      [js_string "ls", js_array ["-l", "/tmp"], js_string "", js_array ["A=1"]]
      ⟨[some "HOME=/root", none], []⟩ (by decide) (by decide) (by decide)
  ⟨c, m, h1, h2, h4, h6⟩

/-- An array of length `2 ^ 32 - 1` has `argc = -1`: the argument vector is the single slot `NULL`, and the environment vector would be written out of bounds. -/
theorem marshal_argv_length_wraps :
    marshal_argv "ls" (js_sparse_array 4294967295) = some [none] ∧
    marshal_env (js_sparse_array 4294967295) = none := by
  decide

/-! ## Two calls in one process -/

/-- The result of the inner `CallSync` does not depend on the process state. -/
theorem CallSync_result_world (os : OS) (file : Option String) (args : Vec) (cwd : String)
    (env : Vec) (w w2 : World) :
    (CallSync os file args cwd env w).result = (CallSync os file args cwd env w2).result := by
  have h1 := (child_fate_world os file args cwd env
    { w with children := os.vfork :: w.children } w).1
  have h2 := (child_fate_world os file args cwd env
    { w2 with children := os.vfork :: w2.children } w).1
  unfold CallSync
  by_cases hv : os.vfork = -1
  · simp [hv]
  · simp [hv, h1, h2]

/-- A call of the inner `CallSync` leaves `environ` as it found it. -/
theorem CallSync_world_environ (os : OS) (file : Option String) (args : Vec) (cwd : String)
    (env : Vec) (w : World) : (CallSync os file args cwd env w).world.environ = w.environ := by
  unfold CallSync
  by_cases hv : os.vfork = -1 <;> simp [hv]

/-- A call run alone statement by statement does what `CallSync` does. -/
theorem Thread.run_alone (os : OS) (file : Option String) (args : Vec) (cwd : String)
    (env : Vec) (w : World) :
    (Thread.run 7 (Thread.start os file args cwd env) w).1.pc = Pc.returned ∧
    (Thread.run 7 (Thread.start os file args cwd env) w).1.result =
      some (CallSync os file args cwd env w).result ∧
    (Thread.run 7 (Thread.start os file args cwd env) w).1.trace =
      (CallSync os file args cwd env w).trace ∧
    (Thread.run 7 (Thread.start os file args cwd env) w).2 =
      (CallSync os file args cwd env w).world := by
  by_cases hv : os.vfork = -1
  · simp [Thread.run, Thread.step, Thread.start, CallSync, hv]
  · by_cases hs : strlen cwd = 0
    · cases hx : os.execvp <;>
        simp [Thread.run, Thread.step, Thread.start, CallSync, child, wait_status, hv, hs, hx]
    · by_cases hc : os.chdir = 0
      · cases hx : os.execvp <;>
          simp [Thread.run, Thread.step, Thread.start, CallSync, child, wait_status, hv, hs,
            hc, hx]
      · simp [Thread.run, Thread.step, Thread.start, CallSync, child, wait_status, hv, hs, hc]

/-- Letting only the first thread run. -/
theorem Process.exec_first (n : Nat) (p : Process) :
    p.exec (List.replicate n false) =
      { p with first := (Thread.run n p.first p.world).1
               world := (Thread.run n p.first p.world).2 } := by
  induction n generalizing p with
  | zero => rfl
  | succ n ih =>
    have := ih (p.step false)
    simp only [Process.exec, List.replicate_succ, List.foldl_cons] at this ⊢
    rw [this]
    simp [Process.step, Thread.run]

/-- Letting only the second thread run. -/
theorem Process.exec_second (n : Nat) (p : Process) :
    p.exec (List.replicate n true) =
      { p with second := (Thread.run n p.second p.world).1
               world := (Thread.run n p.second p.world).2 } := by
  induction n generalizing p with
  | zero => rfl
  | succ n ih =>
    have := ih (p.step true)
    simp only [Process.exec, List.replicate_succ, List.foldl_cons] at this ⊢
    rw [this]
    simp [Process.step, Thread.run]

/-- The observed environments are those of the successful `execvp` events. -/
theorem mem_observed (trace : List Event) (e : Vec) :
    e ∈ observed trace ↔ ∃ (f : Option String) (a : Vec), Event.execvp f a e true ∈ trace := by
  unfold observed
  rw [List.mem_filterMap]
  constructor
  · rintro ⟨ev, hmem, hev⟩
    cases ev with
    | execvp f a environ replaced =>
      cases replaced with
      | true =>
        simp only [Option.some.injEq] at hev
        exact ⟨f, a, hev ▸ hmem⟩
      | false => simp at hev
    | _ => simp at hev
  · rintro ⟨f, a, hmem⟩
    exact ⟨_, hmem, rfl⟩

/-- The image started by a call of `CallSync` is given the vector `env`. -/
theorem observed_CallSync (os : OS) (file : Option String) (args : Vec) (cwd : String)
    (env : Vec) (w : World) (e : Vec)
    (h : e ∈ observed (CallSync os file args cwd env w).trace) : e = env := by
  obtain ⟨f, a, hmem⟩ := (mem_observed _ _).mp h
  exact (CallSync_execvp_event os file args cwd env w f a e true hmem).2.2.1

/-- C10, as stated, fails: nothing serialises the window.  With the statements of two
calls interleaved, the first call stopped just before its `execvp` while the second
call assigns `environ`, the image started by the first call (environment `A=1`) is
given the environment vector of the second call (`B=2`), the image started by the
second call is given the environment of the caller, and the caller is left with the
vector of the first call. -/
theorem interleaved_calls_counterexample :
    two_calls.first.env = [some "A=1", none] ∧
    two_calls.second.env = [some "B=2", none] ∧
    observed (two_calls.exec interleaved).first.trace = [[some "B=2", none]] ∧
    observed (two_calls.exec interleaved).second.trace = [[some "HOME=/root", none]] ∧
    (two_calls.exec interleaved).first.pc = Pc.returned ∧
    (two_calls.exec interleaved).second.pc = Pc.returned ∧
    (two_calls.exec interleaved).world.environ = [some "A=1", none] := by
  decide

/-- C10, amended: for two calls that do not overlap, the first running from start to
return before the second starts, both calls return what `CallSync` returns, the image
started by each call is given exactly the environment vector of its own call, and
after both calls `environ` is what it was before them, the process being in the state
the two calls of `CallSync` one after the other leave. -/
theorem sequential_calls_isolated (os1 os2 : OS) (file1 file2 : Option String)
    (args1 args2 : Vec) (cwd1 cwd2 : String) (env1 env2 : Vec) (w : World) :
    (Process.exec ⟨w, Thread.start os1 file1 args1 cwd1 env1,
        Thread.start os2 file2 args2 cwd2 env2⟩ sequential).first.pc = Pc.returned ∧
    (Process.exec ⟨w, Thread.start os1 file1 args1 cwd1 env1,
        Thread.start os2 file2 args2 cwd2 env2⟩ sequential).second.pc = Pc.returned ∧
    (Process.exec ⟨w, Thread.start os1 file1 args1 cwd1 env1,
        Thread.start os2 file2 args2 cwd2 env2⟩ sequential).first.result =
      some (CallSync os1 file1 args1 cwd1 env1 w).result ∧
    (Process.exec ⟨w, Thread.start os1 file1 args1 cwd1 env1,
        Thread.start os2 file2 args2 cwd2 env2⟩ sequential).second.result =
      some (CallSync os2 file2 args2 cwd2 env2 w).result ∧
    (∀ e ∈ observed (Process.exec ⟨w, Thread.start os1 file1 args1 cwd1 env1,
        Thread.start os2 file2 args2 cwd2 env2⟩ sequential).first.trace, e = env1) ∧
    (∀ e ∈ observed (Process.exec ⟨w, Thread.start os1 file1 args1 cwd1 env1,
        Thread.start os2 file2 args2 cwd2 env2⟩ sequential).second.trace, e = env2) ∧
    (Process.exec ⟨w, Thread.start os1 file1 args1 cwd1 env1,
        Thread.start os2 file2 args2 cwd2 env2⟩ sequential).world.environ = w.environ ∧
    (Process.exec ⟨w, Thread.start os1 file1 args1 cwd1 env1,
        Thread.start os2 file2 args2 cwd2 env2⟩ sequential).world =
      (CallSync os2 file2 args2 cwd2 env2 (CallSync os1 file1 args1 cwd1 env1 w).world).world := by
  have h1 := Thread.run_alone os1 file1 args1 cwd1 env1 w
  have h2 := Thread.run_alone os2 file2 args2 cwd2 env2
    (CallSync os1 file1 args1 cwd1 env1 w).world
  have hexec : Process.exec ⟨w, Thread.start os1 file1 args1 cwd1 env1,
      Thread.start os2 file2 args2 cwd2 env2⟩ sequential =
      ⟨(CallSync os2 file2 args2 cwd2 env2 (CallSync os1 file1 args1 cwd1 env1 w).world).world,
        (Thread.run 7 (Thread.start os1 file1 args1 cwd1 env1) w).1,
        (Thread.run 7 (Thread.start os2 file2 args2 cwd2 env2)
          (CallSync os1 file1 args1 cwd1 env1 w).world).1⟩ := by
    have e1 := Process.exec_first 7 ⟨w, Thread.start os1 file1 args1 cwd1 env1,
      Thread.start os2 file2 args2 cwd2 env2⟩
    unfold sequential
    unfold Process.exec at e1 ⊢
    rw [List.foldl_append, e1]
    have e2 := Process.exec_second 7
      ({ world := (Thread.run 7 (Thread.start os1 file1 args1 cwd1 env1) w).2
         first := (Thread.run 7 (Thread.start os1 file1 args1 cwd1 env1) w).1
         second := Thread.start os2 file2 args2 cwd2 env2 } : Process)
    unfold Process.exec at e2
    rw [e2]
    simp only [h1.2.2.2, h2.2.2.2]
  rw [hexec]
  refine ⟨h1.1, h2.1, h1.2.1, ?_, ?_, ?_, ?_, rfl⟩
  · exact h2.2.1.trans (congrArg some (CallSync_result_world _ _ _ _ _ _ _))
  · intro e he
    simp only [h1.2.2.1] at he
    exact observed_CallSync _ _ _ _ _ _ e he
  · intro e he
    simp only [h2.2.2.1] at he
    exact observed_CallSync _ _ _ _ _ _ e he
  · show (CallSync os2 file2 args2 cwd2 env2
      (CallSync os1 file1 args1 cwd1 env1 w).world).world.environ = w.environ
    rw [CallSync_world_environ, CallSync_world_environ]

theorem sequential_calls_isolated_witness :
    observed (two_calls.exec sequential).first.trace = [[some "A=1", none]] ∧
    (∀ e ∈ observed (two_calls.exec sequential).first.trace, e = [some "A=1", none]) ∧
    (∀ e ∈ observed (two_calls.exec sequential).second.trace, e = [some "B=2", none]) :=
  ⟨by decide,
   (sequential_calls_isolated ⟨41, 0, true, 0⟩ ⟨42, 0, true, 0⟩ (some "env") (some "env")
      [some "env", none] [some "env", none] "" "" [some "A=1", none] [some "B=2", none]
      ⟨[some "HOME=/root", none], []⟩).2.2.2.2.1,
   (sequential_calls_isolated ⟨41, 0, true, 0⟩ ⟨42, 0, true, 0⟩ (some "env") (some "env")
      [some "env", none] [some "env", none] "" "" [some "A=1", none] [some "B=2", none]
      ⟨[some "HOME=/root", none], []⟩).2.2.2.2.2.1⟩

end defjs
